import Mathlib

/-!
Verification of the expense-tracker core (app.py): ledger store, budget
evaluator, report writer and month-rollover engine, shallowly embedded.

Monetary amounts are modelled as rationals (the Python code uses floats;
all quantities in the properties below are small decimals whose arithmetic
is exact). A CSV cell in the `Total` column is `Option ℚ`: `none` stands
for a missing or non-numeric value (`pd.to_numeric(..., errors="coerce")`
turns those into NaN, and `.fillna(0.0)` then into `0.0`).

Report files are modelled as lists of structured lines, one constructor
per `f.write` line the code produces; the textual rendering (currency
symbol, `%.2f` formatting) is presentation and carries no extra
information. A month key `YYYY-MM` and a month label `MonthName_Year`
both determine and are determined by the pair (year, month), so both are
modelled as that pair.
-/

/-- A civil date (the code pins the clock to Asia/Kolkata; only the
calendar fields matter here). -/
structure Date where
  year : Nat
  month : Nat
  day : Nat
deriving DecidableEq

/-- `month_key` / `month_label` both reduce to the (year, month) pair. -/
abbrev MonthKey := Nat × Nat

def month_key (d : Date) : MonthKey := (d.year, d.month)

/-- Gregorian leap year, as Python's `datetime` calendar uses. -/
def isLeap (y : Nat) : Bool := (y % 4 = 0 && y % 100 ≠ 0) || y % 400 = 0

def daysInMonth (y m : Nat) : Nat :=
  if m = 2 then (if isLeap y then 29 else 28)
  else if m = 4 || m = 6 || m = 9 || m = 11 then 30
  else 31

/-- `dt - timedelta(days=1)` on a civil date. -/
def prevDay (d : Date) : Date :=
  if d.day > 1 then ⟨d.year, d.month, d.day - 1⟩
  else if d.month > 1 then ⟨d.year, d.month - 1, daysInMonth d.year (d.month - 1)⟩
  else ⟨d.year - 1, 12, 31⟩

/-- `india_dt.replace(day=1) - timedelta(days=1)`: the date whose report
the rollover block finalizes. -/
def prev_last_day (d : Date) : Date := prevDay ⟨d.year, d.month, 1⟩

/-- A ledger row: category name and accumulated total (the `Categories`
and `Total` columns of the per-user CSV, once numeric). -/
abbrev Ledger := List (String × ℚ)

/-- A raw CSV row as read from disk: the `Total` cell is `none` when the
value is missing or non-numeric. -/
abbrev RawCSV := List (String × Option ℚ)

/-- The fresh DataFrame `load_user_data` builds when no file exists. -/
def freshLedger : Ledger :=
  [("Food", 0), ("Travel", 0), ("Loans", 0), ("Entertainment", 0),
   ("Shopping", 0), ("Others", 0), ("Budget", 0)]

/-- `load_user_data(name)`: `none` models an absent file; otherwise each
`Total` cell is coerced, with missing / non-numeric values becoming 0.0. -/
def load_user_data : Option RawCSV → Ledger
  | none => freshLedger
  | some rows => rows.map (fun r => (r.1, r.2.getD 0))

/-- `save_user_data(name, df)`: writes the full ledger; every total is a
numeric cell in the written CSV. -/
def save_user_data (df : Ledger) : RawCSV := df.map (fun r => (r.1, some r.2))

/-- Row selection `df[df["Categories"] != "Budget"]`. -/
def rowsExceptBudget : Ledger → Ledger
  | [] => []
  | r :: rs =>
    if r.1 != "Budget" then r :: rowsExceptBudget rs else rowsExceptBudget rs

/-- Row selection `df[df["Categories"] == "Budget"]`. -/
def budgetRowsOf : Ledger → Ledger
  | [] => []
  | r :: rs => if r.1 == "Budget" then r :: budgetRowsOf rs else budgetRowsOf rs

/-- The first `Budget` row, as `df.loc[df["Categories"] == "Budget"],
"Total"].values[0]` reads it (`none` models the raised `IndexError` when
no such row exists). -/
def findBudget : Ledger → Option (String × ℚ)
  | [] => none
  | r :: rs => if r.1 == "Budget" then some r else findBudget rs

/-- Sum of the `Total` column over rows whose category is not `Budget`
(`exp_df["Total"].sum()` in `compute_budget_status`). -/
def totalExpenses (df : Ledger) : ℚ :=
  ((rowsExceptBudget df).map (fun r => r.2)).sum

/-- `compute_budget_status(df)` (the outer `Option` is `none` exactly
when the `Budget` lookup raises). -/
def compute_budget_status (df : Ledger) : Option (ℚ × ℚ × ℚ × ℚ) :=
  (findBudget df).map (fun b =>
    let total := totalExpenses df
    let remaining := b.2 - total
    let percent := if b.2 > 0 then total / b.2 * 100 else 0
    (b.2, total, remaining, percent))

/-- Which message `show_budget_summary` emits after the figures. -/
inductive Tier where
  | noBudget
  | exceeded
  | nearLimit
  | within
deriving DecidableEq

/-- The branch structure of `show_budget_summary` (lines 125-133). -/
def show_budget_summary_tier (bv percent : ℚ) : Tier :=
  if bv ≤ 0 then Tier.noBudget
  else if percent ≥ 100 then Tier.exceeded
  else if percent ≥ 80 then Tier.nearLimit
  else Tier.within

/-- The status string `finalize_month_report` writes (lines 211-216). -/
def finalize_status (percent : ℚ) : String :=
  if percent ≥ 100 then "Budget Exceeded"
  else if percent ≥ 80 then "Close to Budget"
  else "Within Budget"

/-- One line of a monthly report file, one constructor per `f.write`. -/
inductive ReportLine where
  | header (user : String) (month year : Nat)
  | budgetLine (amount : ℚ)
  | columnHeader
  | expense (day month year hour minute : Nat) (category : String) (amount : ℚ)
  | summarySep
  | totalLine (amount : ℚ)
  | remainingLine (amount : ℚ)
  | percentLine (percent : ℚ)
  | statusLine (s : String)
  | closedLine (day month year : Nat)
deriving DecidableEq

abbrev ReportFile := List ReportLine

/-- The three header lines `ensure_monthly_report_exists` writes. -/
def reportHeader (name : String) (d : Date) (bv : ℚ) : ReportFile :=
  [ReportLine.header name d.month d.year, ReportLine.budgetLine bv,
   ReportLine.columnHeader]

/-- `ensure_monthly_report_exists(name, dt)`. Inputs: the user's CSV file
and the current state of this month's report file (`none` = absent).
Outer `none` models the exception raised when the loaded ledger has no
`Budget` row; the inner option is the report file afterwards. -/
def ensure_monthly_report_exists (name : String) (d : Date) (csv : Option RawCSV)
    (report : Option ReportFile) : Option (Option ReportFile) :=
  match report with
  | some content => some (some content)
  | none =>
    (findBudget (load_user_data csv)).map (fun b =>
      if b.2 > 0 then some (reportHeader name d b.2) else none)

/-- `append_expense_to_report(name, category, amount, dt)`: ensures the
report, then opens the file in append mode (creating it when absent) and
writes one timestamped line. -/
def append_expense_to_report (name category : String) (amount : ℚ) (d : Date)
    (hour minute : Nat) (csv : Option RawCSV) (report : Option ReportFile) :
    Option ReportFile :=
  (ensure_monthly_report_exists name d csv report).map (fun r =>
    r.getD [] ++
      [ReportLine.expense d.day d.month d.year hour minute category amount])

/-- `finalize_month_report(name, df, dt)`: appends the month-end summary
block to the report file of `dt`'s month (append mode creates the file
when absent); `none` models the exception when `df` has no Budget row. -/
def finalize_month_report (df : Ledger) (d : Date) (report : Option ReportFile) :
    Option ReportFile :=
  (compute_budget_status df).map (fun s =>
    report.getD [] ++
      [ReportLine.summarySep, ReportLine.totalLine s.2.1,
       ReportLine.remainingLine s.2.2.1, ReportLine.percentLine s.2.2.2,
       ReportLine.statusLine (finalize_status s.2.2.2),
       ReportLine.closedLine d.day d.month d.year])

/-- The report-rewrite step of the Modify Budget branch (lines 316-323):
when the current month's report exists, the file is rewritten with a new
title line, a new budget line, and `old.splitlines(True)[2]` (the third
old line) when the old file had more than two lines, else nothing. -/
def modify_budget_rewrite (name : String) (d : Date) (newBudget : ℚ)
    (report : Option ReportFile) : Option ReportFile :=
  match report with
  | none => none
  | some old =>
    some ([ReportLine.header name d.month d.year, ReportLine.budgetLine newBudget]
      ++ (old.drop 2).take 1)

/-- Add Expense branch (line 293): add `amount` to every row whose
category matches. -/
def addExpense (category : String) (amount : ℚ) : Ledger → Ledger
  | [] => []
  | r :: rs =>
    (if r.1 == category then (r.1, r.2 + amount) else r) ::
      addExpense category amount rs

/-- Set / Modify Budget branches (lines 267, 313): overwrite the Budget
rows' total. -/
def setBudget (amount : ℚ) : Ledger → Ledger
  | [] => []
  | r :: rs =>
    (if r.1 == "Budget" then (r.1, amount) else r) :: setBudget amount rs

/-- Rollover reset (line 256): zero every non-Budget total. -/
def resetNonBudget : Ledger → Ledger
  | [] => []
  | r :: rs =>
    (if r.1 == "Budget" then r else (r.1, 0)) :: resetNonBudget rs

/-- Number of `Budget` rows in a ledger. -/
def budgetRows (df : Ledger) : Nat := (budgetRowsOf df).length

/-- Per-user persistent state the rollover block touches: the loaded
ledger, the rollover marker file (`none` = never written), and the
per-month report files. -/
structure RState where
  df : Ledger
  marker : Option MonthKey
  reports : List (MonthKey × ReportFile)
deriving DecidableEq

/-- Read the report file at a path (a per-user filesystem view keyed by
month; `none` = no such file). -/
def getReport : List (MonthKey × ReportFile) → MonthKey → Option ReportFile
  | [], _ => none
  | p :: ps, k => if p.1 == k then some p.2 else getReport ps k

/-- Write (create or overwrite) the report file at a path. -/
def setReport : List (MonthKey × ReportFile) → MonthKey → ReportFile →
    List (MonthKey × ReportFile)
  | [], k, f => [(k, f)]
  | p :: ps, k, f =>
    if p.1 == k then (k, f) :: ps else p :: setReport ps k f

/-- The month rollover block (lines 249-260): fires when the stored
marker differs from the current month key and the day is 1; on fire it
finalizes the previous month's report from the current (pre-reset)
ledger, zeroes every non-Budget total, saves, and overwrites the marker.
Returns the new state and whether it fired; `none` models the exception
when the ledger has no Budget row. -/
def rolloverCheck (d : Date) (s : RState) : Option (RState × Bool) :=
  if s.marker ≠ some (month_key d) ∧ d.day = 1 then
    let pld := prev_last_day d
    (finalize_month_report s.df pld (getReport s.reports (month_key pld))).map
      (fun rpt =>
        ({ df := resetNonBudget s.df,
           marker := some (month_key d),
           reports := setReport s.reports (month_key pld) rpt }, true))
  else some (s, false)

/-! ### Helper lemmas -/

theorem rowsExceptBudget_eq_filter (df : Ledger) :
    rowsExceptBudget df = df.filter (fun r => r.1 != "Budget") := by
  induction df with
  | nil => rfl
  | cons a l ih =>
    by_cases h : a.1 = "Budget" <;>
      simp [rowsExceptBudget, List.filter_cons, h, ih]

theorem budgetRowsOf_resetNonBudget (df : Ledger) :
    budgetRowsOf (resetNonBudget df) = budgetRowsOf df := by
  induction df with
  | nil => rfl
  | cons a l ih =>
    by_cases h : a.1 = "Budget" <;> simp [resetNonBudget, budgetRowsOf, h, ih]

theorem mem_resetNonBudget {df : Ledger} {r : String × ℚ}
    (hr : r ∈ resetNonBudget df) (hne : r.1 ≠ "Budget") : r.2 = 0 := by
  induction df with
  | nil => simp [resetNonBudget] at hr
  | cons a l ih =>
    rw [resetNonBudget, List.mem_cons] at hr
    rcases hr with hr | hr
    · by_cases h : a.1 = "Budget"
      · rw [if_pos (by simp [h])] at hr
        rw [hr] at hne
        exact absurd h hne
      · rw [if_neg (by simp [h])] at hr
        rw [hr]
    · exact ih hr

theorem budgetRows_addExpense (category : String) (amount : ℚ) (df : Ledger) :
    budgetRows (addExpense category amount df) = budgetRows df := by
  induction df with
  | nil => rfl
  | cons a l ih =>
    unfold budgetRows at ih ⊢
    by_cases h : a.1 = category <;>
      by_cases hb : a.1 = "Budget" <;>
        simp [addExpense, budgetRowsOf, h, hb, ih] <;>
          split_ifs <;> simp_all

theorem budgetRows_setBudget (amount : ℚ) (df : Ledger) :
    budgetRows (setBudget amount df) = budgetRows df := by
  induction df with
  | nil => rfl
  | cons a l ih =>
    unfold budgetRows at ih ⊢
    by_cases h : a.1 = "Budget" <;> simp [setBudget, budgetRowsOf, h, ih]

theorem budgetRows_resetNonBudget (df : Ledger) :
    budgetRows (resetNonBudget df) = budgetRows df := by
  unfold budgetRows
  rw [budgetRowsOf_resetNonBudget]

theorem findBudget_isSome_iff (df : Ledger) :
    (findBudget df).isSome = true ↔ budgetRowsOf df ≠ [] := by
  induction df with
  | nil => simp [findBudget, budgetRowsOf]
  | cons a l ih =>
    by_cases h : a.1 = "Budget" <;> simp [findBudget, budgetRowsOf, h, ih]

/-! ### Claim theorems -/

/-- C4: for every ledger containing a `Budget` row, the evaluator returns
`totalExpenses` equal to the sum of the totals of all entries whose
category is not `Budget`, and `remaining = budget - totalExpenses`
exactly; on `{Food: 200, Travel: 100, Budget: 1000}` it returns
`(1000, 300, 700, 30.0)`. -/
theorem compute_budget_status_sum_remaining (df : Ledger) (b : String × ℚ)
    (hb : findBudget df = some b) :
    (∃ percent, compute_budget_status df =
      some (b.2,
        ((df.filter (fun r => r.1 != "Budget")).map (fun r => r.2)).sum,
        b.2 - ((df.filter (fun r => r.1 != "Budget")).map (fun r => r.2)).sum,
        percent)) ∧
    compute_budget_status [("Food", 200), ("Travel", 100), ("Budget", 1000)] =
      some (1000, 300, 700, 30) := by
  constructor
  · refine ⟨if b.2 > 0 then totalExpenses df / b.2 * 100 else 0, ?_⟩
    simp [compute_budget_status, hb, totalExpenses, rowsExceptBudget_eq_filter]
  · simp [compute_budget_status, totalExpenses, findBudget, rowsExceptBudget]
    norm_num

/-- C4 witness. -/
theorem compute_budget_status_sum_remaining_holds :
    compute_budget_status [("Food", 200), ("Travel", 100), ("Budget", 1000)] =
      some (1000, 300, 700, 30) :=
  (compute_budget_status_sum_remaining [("Food", 200), ("Travel", 100),
    ("Budget", 1000)] ("Budget", 1000) (by simp [findBudget])).2

/-- C5: with a zero (or negative) budget the evaluator returns
`percentUsed = 0.0` regardless of expenses, and with a positive budget it
returns `totalExpenses / budget * 100`; the division only happens under
`budget > 0`, whose divisor is then nonzero. -/
theorem compute_budget_status_percent_safe (df : Ledger) (b : String × ℚ)
    (hb : findBudget df = some b) :
    (b.2 ≤ 0 → compute_budget_status df =
      some (b.2, totalExpenses df, b.2 - totalExpenses df, 0)) ∧
    (0 < b.2 → b.2 ≠ 0 ∧
      compute_budget_status df =
        some (b.2, totalExpenses df, b.2 - totalExpenses df,
          totalExpenses df / b.2 * 100)) := by
  constructor
  · intro h
    simp [compute_budget_status, hb, not_lt.mpr h]
  · intro h
    exact ⟨ne_of_gt h, by simp [compute_budget_status, hb, h]⟩

/-- C5 witness. -/
theorem compute_budget_status_percent_safe_holds :
    compute_budget_status [("Food", 5), ("Budget", 0)] = some (0, 5, -5, 0) := by
  have h := (compute_budget_status_percent_safe [("Food", 5), ("Budget", 0)]
    ("Budget", 0) (by simp [findBudget])).1 le_rfl
  simpa [totalExpenses, rowsExceptBudget] using h

/-- C6: the status tier shown by the UI summary and the status string
written by finalization are "Exceeded" exactly when `percentUsed >= 100`,
"Near limit" exactly when `80 <= percentUsed < 100`, and "Within budget"
otherwise, with both thresholds inclusive at the lower bound. -/
theorem status_tier_thresholds (percent bv : ℚ) (hbv : 0 < bv) :
    (finalize_status percent = "Budget Exceeded" ↔ 100 ≤ percent) ∧
    (finalize_status percent = "Close to Budget" ↔ 80 ≤ percent ∧ percent < 100) ∧
    (finalize_status percent = "Within Budget" ↔ percent < 80) ∧
    (show_budget_summary_tier bv percent = Tier.exceeded ↔ 100 ≤ percent) ∧
    (show_budget_summary_tier bv percent = Tier.nearLimit ↔
      80 ≤ percent ∧ percent < 100) ∧
    (show_budget_summary_tier bv percent = Tier.within ↔ percent < 80) ∧
    finalize_status 100 = "Budget Exceeded" ∧
    finalize_status 80 = "Close to Budget" := by
  unfold finalize_status show_budget_summary_tier
  rw [if_neg (not_le.mpr hbv)]
  refine ⟨?_, ?_, ?_, ?_, ?_, ?_, ?_, ?_⟩ <;>
    split_ifs with h1 h2 <;> simp_all <;> linarith

/-- C6 witness. -/
theorem status_tier_thresholds_inst :
    finalize_status 100 = "Budget Exceeded" ∧
    show_budget_summary_tier 1 100 = Tier.exceeded := by
  have h := status_tier_thresholds 100 1 one_pos
  have h100 : (100 : ℚ) ≤ 100 := le_refl 100
  exact ⟨h.2.2.2.2.2.2.1, h.2.2.2.1.mpr h100⟩

theorem load_user_data_map_fst (rows : RawCSV) :
    (load_user_data (some rows)).map Prod.fst = rows.map Prod.fst := by
  simp [load_user_data]

/-- C8: loading never fails on ledger content: with no file the fresh
ledger has exactly the seven fixed categories at 0.0, and with a file
every `Total` cell is normalized, a missing or non-numeric cell becoming
0.0 while categories are kept. -/
theorem load_user_data_never_fails (rows : RawCSV) (c : String) (v : Option ℚ)
    (hv : (c, v) ∈ rows) :
    load_user_data none = [("Food", 0), ("Travel", 0), ("Loans", 0),
      ("Entertainment", 0), ("Shopping", 0), ("Others", 0), ("Budget", 0)] ∧
    (c, v.getD 0) ∈ load_user_data (some rows) ∧
    (load_user_data (some rows)).map Prod.fst = rows.map Prod.fst ∧
    (v = none → (c, (0 : ℚ)) ∈ load_user_data (some rows)) := by
  refine ⟨rfl, ?_, load_user_data_map_fst rows, ?_⟩
  · exact List.mem_map.mpr ⟨(c, v), hv, rfl⟩
  · rintro rfl
    exact List.mem_map.mpr ⟨(c, none), hv, rfl⟩

/-- C8 witness. -/
theorem load_user_data_never_fails_inst :
    ("Food", (0 : ℚ)) ∈ load_user_data (some [("Food", none)]) :=
  (load_user_data_never_fails [("Food", none)] "Food" none (by simp)).2.2.2 rfl

theorem load_save_roundtrip (df : Ledger) :
    load_user_data (some (save_user_data df)) = df := by
  induction df with
  | nil => rfl
  | cons a l ih =>
    simp [load_user_data, save_user_data] at ih ⊢
    exact ih

/-- C9: the fresh ledger has exactly one `Budget` row, and adding an
expense, setting or modifying the budget, the rollover reset, and a
save/load round trip all preserve the number of `Budget` rows; when
exactly one `Budget` row exists the evaluator's lookup succeeds. -/
theorem budget_row_invariant (df : Ledger) (category : String) (amount : ℚ) :
    budgetRows freshLedger = 1 ∧
    budgetRows (addExpense category amount df) = budgetRows df ∧
    budgetRows (setBudget amount df) = budgetRows df ∧
    budgetRows (resetNonBudget df) = budgetRows df ∧
    load_user_data (some (save_user_data df)) = df ∧
    (budgetRows df = 1 → (compute_budget_status df).isSome = true) := by
  refine ⟨by simp [budgetRows, budgetRowsOf, freshLedger],
    budgetRows_addExpense category amount df, budgetRows_setBudget amount df,
    budgetRows_resetNonBudget df, load_save_roundtrip df, ?_⟩
  intro h
  have hne : budgetRowsOf df ≠ [] := by
    intro hnil
    rw [budgetRows, hnil] at h
    simp at h
  have hs := (findBudget_isSome_iff df).mpr hne
  obtain ⟨b, hb⟩ := Option.isSome_iff_exists.mp hs
  simp [compute_budget_status, hb]

/-- C9 witness. -/
theorem budget_row_invariant_inst :
    (compute_budget_status freshLedger).isSome = true := by
  have h := budget_row_invariant freshLedger "Food" 0
  exact h.2.2.2.2.2 h.1

/-- C7: `ensure_monthly_report_exists` creates the report with its
three-line header iff the file is absent and the budget is positive; with
budget 0 (or negative) no file is created; when the file exists nothing
changes, so repeated calls are idempotent. -/
theorem ensure_monthly_report_exists_spec (name : String) (d : Date)
    (csv : Option RawCSV) (report : Option ReportFile) (b : String × ℚ)
    (hb : findBudget (load_user_data csv) = some b) :
    (report = none → 0 < b.2 →
      ensure_monthly_report_exists name d csv report =
        some (some (reportHeader name d b.2))) ∧
    (report = none → b.2 ≤ 0 →
      ensure_monthly_report_exists name d csv report = some none) ∧
    (∀ r, report = some r →
      ensure_monthly_report_exists name d csv report = some (some r)) := by
  refine ⟨?_, ?_, ?_⟩
  · rintro rfl h
    simp [ensure_monthly_report_exists, hb, h]
  · rintro rfl h
    simp [ensure_monthly_report_exists, hb, not_lt.mpr h]
  · rintro r rfl
    rfl

/-- C7 witness. -/
theorem ensure_monthly_report_exists_spec_inst :
    ensure_monthly_report_exists "u" ⟨2025, 11, 1⟩ none none = some none :=
  (ensure_monthly_report_exists_spec "u" ⟨2025, 11, 1⟩ none none ("Budget", 0)
    (by simp [load_user_data, findBudget, freshLedger])).2.1 rfl le_rfl

/-- C10: with a zero budget, appending an expense still creates the
month's report file (append mode), containing no header lines and exactly
the one appended expense line. -/
theorem append_expense_creates_headerless_report (name category : String)
    (amount : ℚ) (d : Date) (hour minute : Nat) (csv : Option RawCSV)
    (b : String × ℚ) (hb : findBudget (load_user_data csv) = some b)
    (h0 : b.2 = 0) :
    append_expense_to_report name category amount d hour minute csv none =
      some [ReportLine.expense d.day d.month d.year hour minute category
        amount] := by
  simp [append_expense_to_report, ensure_monthly_report_exists, hb, h0]

/-- C10 witness. -/
theorem append_expense_creates_headerless_report_inst :
    append_expense_to_report "u" "Food" 50 ⟨2025, 11, 5⟩ 10 30 none none =
      some [ReportLine.expense 5 11 2025 10 30 "Food" 50] :=
  append_expense_creates_headerless_report "u" "Food" 50 ⟨2025, 11, 5⟩ 10 30
    none ("Budget", 0) (by simp [load_user_data, findBudget, freshLedger]) rfl

/-- C3: the Modify Budget branch rewrites an existing report file to the
new two-line head plus only the third old line, so a previously appended
expense line is removed from the file — the report is not append-only
across a budget modification. -/
theorem modify_budget_rewrite_drops_expense_lines :
    modify_budget_rewrite "alice" ⟨2025, 11, 5⟩ 2000
      (some [ReportLine.header "alice" 11 2025, ReportLine.budgetLine 1000,
             ReportLine.columnHeader,
             ReportLine.expense 5 11 2025 10 30 "Food" 200]) =
      some [ReportLine.header "alice" 11 2025, ReportLine.budgetLine 2000,
            ReportLine.columnHeader] ∧
    ReportLine.expense 5 11 2025 10 30 "Food" 200 ∉
      (modify_budget_rewrite "alice" ⟨2025, 11, 5⟩ 2000
        (some [ReportLine.header "alice" 11 2025, ReportLine.budgetLine 1000,
               ReportLine.columnHeader,
               ReportLine.expense 5 11 2025 10 30 "Food" 200])).getD [] := by
  refine ⟨by simp [modify_budget_rewrite], ?_⟩
  simp [modify_budget_rewrite]

/-- C1: the rollover fires iff the stored marker differs from the current
month key and the day of month is 1; after firing every non-Budget total
in the saved ledger is 0.0, the Budget rows are unchanged, the marker
holds the new month key, and running the check again in that state
performs no further finalize or reset. -/
theorem rollover_fires_iff_and_resets (d : Date) (s : RState) (b : String × ℚ)
    (hb : findBudget s.df = some b) :
    ((∃ t, rolloverCheck d s = some (t, true)) ↔
      (s.marker ≠ some (month_key d) ∧ d.day = 1)) ∧
    (∀ t, rolloverCheck d s = some (t, true) →
      (∀ r ∈ t.df, r.1 ≠ "Budget" → r.2 = 0) ∧
      budgetRowsOf t.df = budgetRowsOf s.df ∧
      t.marker = some (month_key d) ∧
      rolloverCheck d t = some (t, false)) := by
  by_cases hc : s.marker ≠ some (month_key d) ∧ d.day = 1
  · obtain ⟨rpt, hrpt⟩ : ∃ rpt, finalize_month_report s.df (prev_last_day d)
        (getReport s.reports (month_key (prev_last_day d))) = some rpt := by
      simp [finalize_month_report, compute_budget_status, hb]
    have heq : rolloverCheck d s =
        some ({ df := resetNonBudget s.df, marker := some (month_key d),
                reports := setReport s.reports (month_key (prev_last_day d))
                  rpt }, true) := by
      unfold rolloverCheck
      rw [if_pos hc]
      simp [hrpt]
    refine ⟨⟨fun _ => hc, fun _ => ⟨_, heq⟩⟩, ?_⟩
    intro t ht
    rw [heq] at ht
    injection ht with hp
    injection hp with h1 h2
    subst h1
    refine ⟨?_, ?_, ?_, ?_⟩
    · intro r hr hner
      exact mem_resetNonBudget hr hner
    · exact budgetRowsOf_resetNonBudget s.df
    · rfl
    · unfold rolloverCheck
      rw [if_neg (by simp)]
  · have heq : rolloverCheck d s = some (s, false) := by
      unfold rolloverCheck
      rw [if_neg hc]
    constructor
    · constructor
      · rintro ⟨t, ht⟩
        rw [heq] at ht
        simp at ht
      · intro h
        exact absurd h hc
    · intro t ht
      rw [heq] at ht
      simp at ht

/-- C1 witness. -/
theorem rollover_fires_iff_and_resets_inst :
    ∃ t, rolloverCheck ⟨2025, 12, 1⟩
      { df := [("Budget", 500)], marker := none, reports := [] } =
        some (t, true) :=
  (rollover_fires_iff_and_resets ⟨2025, 12, 1⟩
    { df := [("Budget", 500)], marker := none, reports := [] } ("Budget", 500)
    (by simp [findBudget])).1.mpr (by simp [month_key])

/-- C2: the date whose report the rollover finalizes is first-of-current-
month minus one day, i.e. the last day of the previous month; and the
rollover of 2025-12-01 with marker 2025-11 and ledger
`{Food: 1050, Travel: 100, Budget: 1000}` appends to November's report a
summary with total 1150, remaining -150, percent 115, status Exceeded,
computed from the pre-reset totals, leaves `{Food: 0, Travel: 0,
Budget: 1000}`, and sets the marker to 2025-12. -/
theorem rollover_finalizes_previous_month (d : Date) :
    (2 ≤ d.month →
      prev_last_day d =
        ⟨d.year, d.month - 1, daysInMonth d.year (d.month - 1)⟩) ∧
    (d.month = 1 → prev_last_day d = ⟨d.year - 1, 12, 31⟩) ∧
    (∀ rpt0 : ReportFile,
      rolloverCheck ⟨2025, 12, 1⟩
        { df := [("Food", 1050), ("Travel", 100), ("Budget", 1000)],
          marker := some (2025, 11),
          reports := [((2025, 11), rpt0)] } =
      some ({ df := [("Food", 0), ("Travel", 0), ("Budget", 1000)],
              marker := some (2025, 12),
              reports := [((2025, 11), rpt0 ++
                [ReportLine.summarySep, ReportLine.totalLine 1150,
                 ReportLine.remainingLine (-150), ReportLine.percentLine 115,
                 ReportLine.statusLine "Budget Exceeded",
                 ReportLine.closedLine 30 11 2025])] }, true)) := by
  refine ⟨?_, ?_, ?_⟩
  · intro h
    have hm : d.month > 1 := by omega
    simp [prev_last_day, prevDay, hm]
  · intro h
    simp [prev_last_day, prevDay, h]
  · intro rpt0
    simp [rolloverCheck, month_key, prev_last_day, prevDay, daysInMonth, isLeap,
      finalize_month_report, compute_budget_status, totalExpenses,
      finalize_status, findBudget, rowsExceptBudget, getReport, setReport,
      resetNonBudget]
    norm_num

/-- C2 witness. -/
theorem rollover_finalizes_previous_month_inst :
    prev_last_day ⟨2025, 12, 1⟩ = ⟨2025, 11, 30⟩ := by
  have h := (rollover_finalizes_previous_month ⟨2025, 12, 1⟩).1 (by norm_num)
  simpa [daysInMonth, isLeap] using h
